import Mathlib

/-!
Shallow embedding of the observability correlation core of the
`app-service-observability-agent` repository, together with proofs of the
specification's testable properties.

Files embedded:
* `src/azure/log-analytics.ts` — the guardrail-enforcing structured-query
  connector (`LogAnalyticsConnector.query`, `addRowLimit`).
* `src/azure/kudu.ts` — the unstructured-log connector with its two-tier
  fallback (`KuduConnector.getContainerLogs`, `getRecentLogs`).
* `src/tools/index.ts` — the event classifiers and the report assembly of
  the `diagnose_deployment` and `correlate_events` tools.

Modelling conventions: JavaScript strings are Lean `String`s (character
operations are spelled out over `String.data` so that every definition
kernel-evaluates); machine timestamps are epoch milliseconds as `Nat`;
network calls are passed in as explicit `Except`/function parameters, so a
thrown/rejected backend call is an `.error` value; wall-clock readings are
explicit parameters.
-/

namespace Obs

/-- Character-level prefix test, `pat` a prefix of `s` (JS `startsWith`). -/
def isPrefixChars : List Char → List Char → Bool
  | [], _ => true
  | _ :: _, [] => false
  | a :: as, b :: bs => a = b && isPrefixChars as bs

/-- Character-level containment test (JS `String.prototype.includes`). -/
def containsChars (pat : List Char) : List Char → Bool
  | [] => isPrefixChars pat []
  | b :: bs => isPrefixChars pat (b :: bs) || containsChars pat bs

/-- JS `s.includes(pat)`: substring containment. -/
def strContains (s pat : String) : Bool := containsChars pat.data s.data

/-- JS `String.prototype.toLowerCase` restricted to ASCII (the only case the
code exercises): map `A`–`Z` to `a`–`z`. -/
def lowerChar (c : Char) : Char :=
  if 65 ≤ c.toNat ∧ c.toNat ≤ 90 then Char.ofNat (c.toNat + 32) else c

/-- ASCII lower-casing of a string (JS `toLowerCase`). -/
def toLowerStr (s : String) : String := String.mk (s.data.map lowerChar)

/-- JS truthiness of an optional string: `undefined` and `""` are falsy. -/
def jsTruthyStr : Option String → Bool
  | none => false
  | some s => !(s = "")

/-- JS `o || d` for an optional string default. -/
def jsOrStr (o : Option String) (d : String) : String :=
  match o with
  | none => d
  | some s => if s = "" then d else s

/-- Scalar cell value of a structured-query row.  The Azure SDK materialises
datetime columns as JS `Date` objects, modelled as epoch milliseconds. -/
inductive Scalar where
  | null
  | str (v : String)
  | num (v : Int)
  | bool (v : Bool)
  | date (ms : Nat)
deriving DecidableEq

/-- One table of a structured-query response: the `columnDescriptors` (each
with an optional `name`) and the raw rows (lists of cells). -/
structure QueryTable where
  columnDescriptors : List (Option String)
  rows : List (List Scalar)
deriving DecidableEq

/-- Outcome of `client.queryWorkspace`: a `Success` status with tables, a
`PartialFailure` status with an optional error message, any other status, or
a thrown error with its message. -/
inductive BackendOutcome where
  | success (tables : List QueryTable)
  | partialFailure (message : Option String)
  | otherStatus
  | thrown (message : String)

/-- `LogQueryResult` of `src/azure/log-analytics.ts`.  A row object is the
association list built by `columns.forEach((col, idx) => obj[col] = row[idx])`;
a missing cell (`row[idx]` out of range) is JS `undefined`, modelled `none`. -/
structure LogQueryResult where
  success : Bool
  rowCount : Nat
  truncated : Bool
  columns : List String
  rows : List (List (String × Option Scalar))
  queryTimeMs : Nat
  error : Option String
deriving DecidableEq

/-- `MAX_ROWS` of `log-analytics.ts`. -/
def MAX_ROWS : Nat := 500

/-- `addRowLimit` of `log-analytics.ts`: append `\n| limit <limit>` unless the
lower-cased query already contains `| limit` or `| take`. -/
def addRowLimit (query : String) (limit : Nat) : String :=
  let lowerQuery := toLowerStr query
  if strContains lowerQuery "| limit" || strContains lowerQuery "| take" then
    query
  else
    query ++ "\n| limit " ++ toString limit

/-- Convert one raw row to the row object
(`columns.forEach((col, idx) => obj[col] = row[idx])`). -/
def rowToObj (columns : List String) (row : List Scalar) :
    List (String × Option Scalar) :=
  columns.enum.map (fun p => (p.2, row.get? p.1))

/-- The `try`-block of `LogAnalyticsConnector.query` after the backend call
returned: build the `LogQueryResult` from the backend outcome.
`queryTimeMs` is the wall-clock time of the round trip, a parameter here. -/
def dispatchOutcome (outcome : BackendOutcome) (queryTimeMs : Nat) :
    LogQueryResult :=
  match outcome with
  | .success [] =>
      { success := true, rowCount := 0, truncated := false, columns := [],
        rows := [], queryTimeMs := queryTimeMs, error := none }
  | .success (table :: _) =>
      let columns := (table.columnDescriptors).map (fun c => jsOrStr c "")
      let rows := table.rows.map (rowToObj columns)
      { success := true, rowCount := rows.length,
        truncated := decide (rows.length ≥ MAX_ROWS), columns := columns,
        rows := rows, queryTimeMs := queryTimeMs, error := none }
  | .partialFailure m =>
      { success := false, rowCount := 0, truncated := false, columns := [],
        rows := [], queryTimeMs := queryTimeMs,
        error := some ("Partial query failure: " ++ jsOrStr m "Unknown error") }
  | .otherStatus =>
      { success := true, rowCount := 0, truncated := false, columns := [],
        rows := [], queryTimeMs := queryTimeMs, error := none }
  | .thrown m =>
      { success := false, rowCount := 0, truncated := false, columns := [],
        rows := [], queryTimeMs := queryTimeMs, error := some m }

/-- The guardrail rejection result returned for a too-large time range
(`queryTimeMs` is the literal `0` of the source). -/
def rejectResult : LogQueryResult :=
  { success := false, rowCount := 0, truncated := false, columns := [],
    rows := [], queryTimeMs := 0,
    error := some "Time range exceeds maximum of 7 days. Use a shorter time range." }

/-- `LogAnalyticsConnector.query`: validate the time range against the 7-day
ceiling, add the row limit, dispatch to the backend.  `backend` maps the
dispatched query text to the backend outcome (the workspace id is fixed
inside it); `elapsed` is the measured round-trip time in milliseconds. -/
def query (backend : String → BackendOutcome) (elapsed : Nat)
    (kqlQuery : String) (timeRangeMinutes : Int) : LogQueryResult :=
  if timeRangeMinutes > 7 * 24 * 60 then rejectResult
  else dispatchOutcome (backend (addRowLimit kqlQuery MAX_ROWS)) elapsed

/-- Claim-side reading of "already contains a row-cap clause": case-insensitive
containment of the `| limit` or `| take` clause keyword. -/
def hasRowCapClause (q : String) : Bool :=
  strContains (toLowerStr q) "| limit" || strContains (toLowerStr q) "| take"

/-- Case-insensitive substring test (JS
`a.toLowerCase().includes(b.toLowerCase())`). -/
def containsCI (s pat : String) : Bool :=
  strContains (toLowerStr s) (toLowerStr pat)

/-- `KuduLogEntry` of `src/azure/kudu.ts`; `lastUpdated` is the epoch-ms
value of `new Date(entry.lastUpdated).getTime()`. -/
structure KuduLogEntry where
  machineName : String
  lastUpdated : Nat
  size : Nat
  href : String
  path : String
deriving DecidableEq

/-- `ContainerLog` of `kudu.ts`: a normalized unstructured log line. -/
structure ContainerLog where
  timestamp : String
  content : String
deriving DecidableEq

/-- `KuduLogsResult` of `kudu.ts`. -/
structure KuduLogsResult where
  success : Bool
  entries : List ContainerLog
  error : Option String := none
deriving DecidableEq

/-- Insertion step of the descending sort on `lastUpdated`
(`logs.sort((a, b) => dateOf(b) - dateOf(a))`).  An element is inserted
before the first strictly-smaller-or-equal key, so an earlier-listed element
stays before later-listed elements with the same key — stable, like the
ES2019 `Array.prototype.sort` of the source. -/
def insertByLastUpdatedDesc (e : KuduLogEntry) :
    List KuduLogEntry → List KuduLogEntry
  | [] => [e]
  | x :: xs =>
    if e.lastUpdated ≥ x.lastUpdated then e :: x :: xs
    else x :: insertByLastUpdatedDesc e xs

/-- Stable sort by `lastUpdated` descending (the head of the input is
inserted into the sorted tail, and `insertByLastUpdatedDesc` places it before
tied keys). -/
def sortByLastUpdatedDesc : List KuduLogEntry → List KuduLogEntry
  | [] => []
  | x :: xs => insertByLastUpdatedDesc x (sortByLastUpdatedDesc xs)

/-- Split a character list at a separator (JS `split`). -/
def splitChAux (sep : Char) : List Char → List Char → List (List Char)
  | [], acc => [acc.reverse]
  | c :: cs, acc =>
    if c = sep then acc.reverse :: splitChAux sep cs []
    else splitChAux sep cs (c :: acc)

/-- JS `content.split('\n')`. -/
def splitLines (s : String) : List String :=
  (splitChAux '\n' s.data []).map String.mk

/-- ASCII whitespace, the characters JS `trim` strips in the logs at hand. -/
def jsWhitespaceChar (c : Char) : Bool :=
  c = ' ' || c = '\t' || c = '\n' || c = '\r'
    || c = Char.ofNat 11 || c = Char.ofNat 12

/-- A line whose `trim()` is falsy (empty): every character is whitespace. -/
def isBlankLine (s : String) : Bool := s.data.all jsWhitespaceChar

/-- JS `xs.slice(-n)`: the last `n` elements — and the whole list when
`n = 0`, since `slice(-0)` is `slice(0)`. -/
def lastNList {α : Type} (n : Nat) (xs : List α) : List α :=
  if n = 0 then xs else xs.drop (xs.length - n)

/-- ASCII digit test for the timestamp pattern. -/
def isDigitChar (c : Char) : Bool := 48 ≤ c.toNat && c.toNat ≤ 57

/-- The timestamp pattern match of `getContainerLogs`
(`/^(\d{4}-\d{2}-\d{2}[T ]\d{2}:\d{2}:\d{2})/`): the captured 19-character
prefix when the line starts with it, else the fetch-time `now`. -/
def extractTimestamp (line : String) (now : String) : String :=
  match line.data with
  | c1 :: c2 :: c3 :: c4 :: c5 :: c6 :: c7 :: c8 :: c9 :: c10 :: c11 :: c12
      :: c13 :: c14 :: c15 :: c16 :: c17 :: c18 :: c19 :: _ =>
    if isDigitChar c1 && isDigitChar c2 && isDigitChar c3 && isDigitChar c4
        && c5 = '-' && isDigitChar c6 && isDigitChar c7 && c8 = '-'
        && isDigitChar c9 && isDigitChar c10 && (c11 = 'T' || c11 = ' ')
        && isDigitChar c12 && isDigitChar c13 && c14 = ':'
        && isDigitChar c15 && isDigitChar c16 && c17 = ':'
        && isDigitChar c18 && isDigitChar c19 then
      String.mk [c1, c2, c3, c4, c5, c6, c7, c8, c9, c10, c11, c12, c13, c14,
        c15, c16, c17, c18, c19]
    else now
  | _ => now

/-- `listContainerLogs` of `kudu.ts`: pass the listing through, wrapping a
fetch failure's message. -/
def listContainerLogsModel (raw : Except String (List KuduLogEntry)) :
    Except String (List KuduLogEntry) :=
  match raw with
  | .ok v => .ok v
  | .error e => .error ("Failed to list container logs: " ++ e)

/-- `KuduConnector.getContainerLogs`: list the live-stream descriptors, fetch
the most recently updated one, split into lines, drop blank lines, keep the
last `maxLines`, and extract a leading timestamp per line (default `now`).
`listRaw` is the listing fetch, `fetchText` maps an `href` to its content. -/
def getContainerLogs (listRaw : Except String (List KuduLogEntry))
    (fetchText : String → Except String String) (now : String)
    (maxLines : Nat) : KuduLogsResult :=
  match listContainerLogsModel listRaw with
  | .error e => { success := false, entries := [], error := some e }
  | .ok [] => { success := true, entries := [] }
  | .ok (l0 :: rest) =>
    let sorted := sortByLastUpdatedDesc (l0 :: rest)
    let recentLog := sorted.headD l0
    match fetchText recentLog.href with
    | .error e => { success := false, entries := [], error := some e }
    | .ok content =>
      let lines := (splitLines content).filter (fun l => !(isBlankLine l))
      let recentLines := lastNList maxLines lines
      { success := true,
        entries := recentLines.map (fun line =>
          { timestamp := extractTimestamp line now, content := line }) }

/-- `listLogFiles` of `kudu.ts`, error message wrapped. -/
def listLogFilesModel (raw : Except String (List KuduLogEntry)) :
    Except String (List KuduLogEntry) :=
  match raw with
  | .ok v => .ok v
  | .error e => .error ("Failed to list log files: " ++ e)

/-- `readLogFile` of `kudu.ts`: fetch the file, and when it exceeds
`maxBytes` keep the tail and mark the truncation. -/
def readLogFileModel (fetched : Except String String) (maxBytes : Nat) :
    Except String String :=
  match fetched with
  | .error e => .error ("Failed to read log file: " ++ e)
  | .ok content =>
    if content.data.length > maxBytes then
      .ok (String.mk (content.data.drop (content.data.length - maxBytes))
        ++ "\n... (truncated)")
    else .ok content

/-- The line processing of the on-disk fallback of `getRecentLogs`: split,
drop blank lines, apply the substring filter, keep the last `maxLines`, and
stamp every entry with the fetch time `now` (no timestamp extraction). -/
def fallbackEntries (content : String) (filt : Option String) (maxLines : Nat)
    (now : String) : List ContainerLog :=
  let lines0 := (splitLines content).filter (fun l => !(isBlankLine l))
  let lines :=
    match filt with
    | some fs => if fs = "" then lines0
        else lines0.filter (fun l => containsCI l fs)
    | none => lines0
  (lastNList maxLines lines).map (fun line =>
    { timestamp := now, content := line })

/-- The filter step of the live-stream branch of `getRecentLogs`
(`if (filter) entries = entries.filter(...)`; an empty filter is falsy). -/
def liveEntriesFiltered (entries : List ContainerLog) (filt : Option String) :
    List ContainerLog :=
  match filt with
  | some fs => if fs = "" then entries
      else entries.filter (fun e => containsCI e.content fs)
  | none => entries

/-- The `try`-block fallback of `getRecentLogs`: list
`/LogFiles/Application/`, read the most recently updated file, process its
lines; a thrown listing or read error is caught and the original
`containerResult` returned. -/
def fallbackFlow (containerResult : KuduLogsResult)
    (listFilesRaw : Except String (List KuduLogEntry))
    (readRaw : String → Except String String)
    (now : String) (maxLines : Nat) (filt : Option String) : KuduLogsResult :=
  match listLogFilesModel listFilesRaw with
  | .error _ => containerResult
  | .ok [] => { success := true, entries := [] }
  | .ok (f0 :: rest) =>
    let top := (sortByLastUpdatedDesc (f0 :: rest)).headD f0
    match readLogFileModel (readRaw top.path) 100000 with
    | .error _ => containerResult
    | .ok content =>
      { success := true, entries := fallbackEntries content filt maxLines now }

/-- `KuduConnector.getRecentLogs`: try the live stream; when it succeeded
with at least one entry, apply the filter and return; otherwise fall back to
the on-disk application log, and when the fallback itself errors return the
original live-stream result.  `listFilesRaw` is the `/LogFiles/Application/`
listing, `readRaw` maps a file path to its raw fetched content. -/
def getRecentLogs (listRaw : Except String (List KuduLogEntry))
    (fetchText : String → Except String String)
    (listFilesRaw : Except String (List KuduLogEntry))
    (readRaw : String → Except String String)
    (now : String) (maxLines : Nat) (filt : Option String) : KuduLogsResult :=
  let containerResult := getContainerLogs listRaw fetchText now maxLines
  if containerResult.success && !containerResult.entries.isEmpty then
    { success := true,
      entries := liveEntriesFiltered containerResult.entries filt }
  else fallbackFlow containerResult listFilesRaw readRaw now maxLines filt

/-- Zero-pad a number to a width (for ISO-8601 rendering). -/
def padNum (n width : Nat) : String :=
  let s := toString n
  if s.length < width then
    String.mk (List.replicate (width - s.length) '0') ++ s
  else s

/-- Gregorian date from days since 1970-01-01 (valid for days ≥ 0):
`(year, month, day)`. -/
def civilFromDays (z0 : Nat) : Nat × Nat × Nat :=
  let z := z0 + 719468
  let era := z / 146097
  let doe := z % 146097
  let yoe := (doe - doe / 1460 + doe / 36524 - doe / 146096) / 365
  let y := yoe + era * 400
  let doy := doe - (365 * yoe + yoe / 4 - yoe / 100)
  let mp := (5 * doy + 2) / 153
  let d := doy - (153 * mp + 2) / 5 + 1
  let m := if mp < 10 then mp + 3 else mp - 9
  (if m ≤ 2 then y + 1 else y, m, d)

/-- JS `Date.prototype.toISOString` on an epoch-millisecond value:
`YYYY-MM-DDTHH:MM:SS.mmmZ`. -/
def isoString (ms : Nat) : String :=
  let rem := ms % 86400000
  match civilFromDays (ms / 86400000) with
  | (y, m, d) =>
    padNum y 4 ++ "-" ++ padNum m 2 ++ "-" ++ padNum d 2 ++ "T"
      ++ padNum (rem / 3600000) 2 ++ ":" ++ padNum (rem % 3600000 / 60000) 2
      ++ ":" ++ padNum (rem % 60000 / 1000) 2 ++ "." ++ padNum (rem % 1000) 3
      ++ "Z"

/-- Platform-log startup test of `diagnose_deployment`
(`r.Message?.includes('start') || … 'probe' || … 'running'`): case-SENSITIVE
substring tests. -/
def isStartupEvent (msg : String) : Bool :=
  strContains msg "start" || strContains msg "probe" || strContains msg "running"

/-- Platform-log error test (`r.Message?.toLowerCase().includes('error')`
etc.): case-insensitive substring tests. -/
def isErrorEvent (msg : String) : Bool :=
  strContains (toLowerStr msg) "error" || strContains (toLowerStr msg) "fail"
    || strContains (toLowerStr msg) "crash" || strContains (toLowerStr msg) "oom"
    || strContains (toLowerStr msg) "memory"

/-- Platform-log termination test (`r.Message?.includes('terminat') || …
'stop'`): case-SENSITIVE substring tests. -/
def isTerminateEvent (msg : String) : Bool :=
  strContains msg "terminat" || strContains msg "stop"

/-- App-log error test (`r.ResultDescription?.toLowerCase().includes(…)` over
`error`, `exception`, `fail`): case-insensitive. -/
def isAppErrorLog (desc : String) : Bool :=
  strContains (toLowerStr desc) "error"
    || strContains (toLowerStr desc) "exception"
    || strContains (toLowerStr desc) "fail"

/-- Claim-side combinator: `s` contains any of the keywords, case-sensitive. -/
def containsAnyKeyword (s : String) (pats : List String) : Bool :=
  pats.any (fun p => strContains s p)

/-- Claim-side combinator: `s` contains any of the keywords, ignoring case. -/
def containsAnyKeywordCI (s : String) (pats : List String) : Bool :=
  pats.any (fun p => containsCI s p)

/-- JS property read `row[key]` on a row object: the last assignment wins;
an absent key is `undefined` (`none`). -/
def jsGet (row : List (String × Option Scalar)) (key : String) : Option Scalar :=
  match (row.filter (fun p => p.1 = key)).getLast? with
  | none => none
  | some p => p.2

/-- Optional-chained string test `row.key?.test(...)`: false on `undefined`,
`null`, and non-string values. -/
def msgTest (row : List (String × Option Scalar)) (key : String)
    (test : String → Bool) : Bool :=
  match jsGet row key with
  | some (.str v) => test v
  | _ => false

/-- JS `v >= k` with number coercion (`null` is 0, booleans 0/1, `Date`s
their epoch ms; `undefined` and non-numeric strings compare as NaN: false). -/
def jsGeNum (v : Option Scalar) (k : Int) : Bool :=
  match v with
  | some (.num x) => k ≤ x
  | some .null => k ≤ 0
  | some (.bool b) => k ≤ (if b then 1 else 0)
  | some (.date ms) => k ≤ (ms : Int)
  | some (.str _) => false
  | none => false

/-- JS `v < k` with the same coercions. -/
def jsLtNum (v : Option Scalar) (k : Int) : Bool :=
  match v with
  | some (.num x) => x < k
  | some .null => 0 < k
  | some (.bool b) => (if b then 1 else 0) < k
  | some (.date ms) => (ms : Int) < k
  | some (.str _) => false
  | none => false

/-- JS template interpolation `${v}` of a row value. -/
def jsShowScalar : Option Scalar → String
  | none => "undefined"
  | some .null => "null"
  | some (.str v) => v
  | some (.num v) => toString v
  | some (.bool b) => if b then "true" else "false"
  | some (.date ms) => isoString ms

/-- `new Date(v).toISOString()` for a date-valued cell (the only values the
code feeds it). -/
def jsDateMs (v : Option Scalar) : Nat :=
  match v with
  | some (.date ms) => ms
  | _ => 0

/-- Platform-row filters of `diagnose_deployment`. -/
def rowStartup (row : List (String × Option Scalar)) : Bool :=
  msgTest row "Message" isStartupEvent

/-- Platform-row error filter. -/
def rowError (row : List (String × Option Scalar)) : Bool :=
  msgTest row "Message" isErrorEvent

/-- Platform-row termination filter. -/
def rowTerminate (row : List (String × Option Scalar)) : Bool :=
  msgTest row "Message" isTerminateEvent

/-- Console-row application-error filter. -/
def rowAppError (row : List (String × Option Scalar)) : Bool :=
  msgTest row "ResultDescription" isAppErrorLog

/-- HTTP-row 5xx filter (`r.ScStatus >= 500`). -/
def rowHttpError (row : List (String × Option Scalar)) : Bool :=
  jsGeNum (jsGet row "ScStatus") 500

/-- HTTP-row success filter (`r.ScStatus < 400`). -/
def rowHttpSuccess (row : List (String × Option Scalar)) : Bool :=
  jsLtNum (jsGet row "ScStatus") 400

/-- JS `Array.prototype.join(sep)`. -/
def joinSep (sep : String) : List String → String
  | [] => ""
  | [x] => x
  | x :: xs => x ++ sep ++ joinSep sep xs

/-- Concatenation of already-terminated fragments. -/
def concatAll : List String → String
  | [] => ""
  | x :: xs => x ++ concatAll xs

/-- The "Platform Events" section of the deployment-diagnosis report
(`tools/index.ts`, `diagnose_deployment`). -/
def platformSection (platformLogs : LogQueryResult) : String :=
  "### Platform Events (" ++ toString platformLogs.rows.length ++ " events)\n\n"
  ++ (if platformLogs.rows.length > 0 then
      let startupEvents := platformLogs.rows.filter rowStartup
      let errorEvents := platformLogs.rows.filter rowError
      let terminateEvents := platformLogs.rows.filter rowTerminate
      (if errorEvents.length > 0 then
        "⚠️ **Errors detected:**\n"
        ++ concatAll ((errorEvents.take 5).map (fun evt =>
            "- `" ++ jsShowScalar (jsGet evt "Message") ++ "`\n"))
        ++ "\n"
       else "")
      ++ (if startupEvents.length > 0 then
        "**Startup sequence:**\n"
        ++ concatAll ((startupEvents.take 5).map (fun evt =>
            "- " ++ isoString (jsDateMs (jsGet evt "TimeGenerated")) ++ ": "
              ++ jsShowScalar (jsGet evt "Message") ++ "\n"))
        ++ "\n"
       else "")
      ++ (if terminateEvents.length > 0 then
        "**Container terminations:**\n"
        ++ concatAll ((terminateEvents.take 3).map (fun evt =>
            "- " ++ isoString (jsDateMs (jsGet evt "TimeGenerated")) ++ ": "
              ++ jsShowScalar (jsGet evt "Message") ++ "\n"))
        ++ "\n"
       else "")
    else "_No platform events found in this window._\n\n")

/-- The "Application Logs" section of the deployment-diagnosis report. -/
def consoleSection (consoleLogs : LogQueryResult) : String :=
  "### Application Logs (" ++ toString consoleLogs.rows.length ++ " entries)\n\n"
  ++ (if consoleLogs.rows.length > 0 then
      let errorLogs := consoleLogs.rows.filter rowAppError
      if errorLogs.length > 0 then
        "⚠️ **Application errors:**\n```\n"
        ++ concatAll ((errorLogs.take 5).map (fun log =>
            jsShowScalar (jsGet log "ResultDescription") ++ "\n"))
        ++ "```\n\n"
      else "✅ No application errors detected.\n\n"
    else "_No console output in this window._\n\n")

/-- The "First HTTP Requests" section of the deployment-diagnosis report. -/
def httpSection (httpLogs : LogQueryResult) : String :=
  "### First HTTP Requests (" ++ toString httpLogs.rows.length ++ " requests)\n\n"
  ++ (if httpLogs.rows.length > 0 then
      let errors := httpLogs.rows.filter rowHttpError
      let successful := httpLogs.rows.filter rowHttpSuccess
      (if errors.length > 0 then
        "⚠️ **HTTP 5xx errors:** " ++ toString errors.length ++ "\n"
        ++ concatAll ((errors.take 5).map (fun req =>
            "- " ++ jsShowScalar (jsGet req "ScStatus") ++ " "
              ++ jsShowScalar (jsGet req "CsMethod") ++ " "
              ++ jsShowScalar (jsGet req "CsUriStem") ++ " ("
              ++ jsShowScalar (jsGet req "TimeTaken") ++ "ms)\n"))
        ++ "\n"
       else "")
      ++ (match successful with
        | [] => ""
        | firstSuccess :: _ =>
          "✅ **Successful requests:** " ++ toString successful.length ++ "\n"
            ++ "- First success: " ++ jsShowScalar (jsGet firstSuccess "CsMethod")
            ++ " " ++ jsShowScalar (jsGet firstSuccess "CsUriStem") ++ " at "
            ++ isoString (jsDateMs (jsGet firstSuccess "TimeGenerated"))
            ++ "\n\n")
    else "_No HTTP requests in this window (app may not have received traffic yet)._\n\n")

/-- The reduced-confidence fallback block of `diagnose_deployment` when no
workspace id is available: the warning label and up to 30 displayed lines of
the ≤ 100 fetched unstructured entries. -/
def fallbackSection (entries : List ContainerLog) : String :=
  "⚠️ Log Analytics not configured. Limited diagnosis available.\n\n"
  ++ "### Recent Container Logs\n\n"
  ++ (if entries.length > 0 then
      "```\n" ++ joinSep "\n" ((entries.take 30).map (fun e => e.content))
        ++ "\n```\n\n"
    else "")

/-- The KQL time filter shared by the three diagnosis queries. -/
def windowFilterStr (startIso endIso : String) : String :=
  "| where TimeGenerated between (datetime('" ++ startIso
    ++ "') .. datetime('" ++ endIso ++ "'))"

/-- The platform-events query of `diagnose_deployment`. -/
def platformQueryStr (startIso endIso : String) : String :=
  "AppServicePlatformLogs\n" ++ windowFilterStr startIso endIso
    ++ "\n| project TimeGenerated, Message\n| order by TimeGenerated asc"

/-- The console-logs query of `diagnose_deployment`. -/
def consoleQueryStr (startIso endIso : String) : String :=
  "AppServiceConsoleLogs\n" ++ windowFilterStr startIso endIso
    ++ "\n| project TimeGenerated, ResultDescription\n| order by TimeGenerated asc"

/-- The first-HTTP-requests query of `diagnose_deployment` (capped by
`| take 20`). -/
def httpQueryStr (startIso endIso : String) : String :=
  "AppServiceHTTPLogs\n" ++ windowFilterStr startIso endIso
    ++ "\n| project TimeGenerated, CsMethod, CsUriStem, ScStatus, TimeTaken"
    ++ "\n| order by TimeGenerated asc\n| take 20"

/-- The fixed header of the deployment-diagnosis report. -/
def deployHeader (deployTimeMs : Nat) (status deployer message : Option String) :
    String :=
  "## Deployment Diagnosis\n\n"
    ++ "**Deployment:** " ++ isoString deployTimeMs ++ "\n"
    ++ "**Status:** " ++ jsOrStr status "Unknown" ++ "\n"
    ++ "**Deployer:** " ++ jsOrStr deployer "N/A" ++ "\n"
    ++ "**Message:** " ++ jsOrStr message "N/A" ++ "\n\n"

/-- The closing summary of the deployment-diagnosis report. -/
def diagnosisSummary (windowMinutes deployTimeMs : Nat) : String :=
  "### Diagnosis Summary\n\n"
    ++ "Analyzed " ++ toString windowMinutes
    ++ " minutes after deployment at " ++ isoString deployTimeMs ++ ".\n"
    ++ "Use `correlate_events` with specific timestamps for deeper investigation."

/-- The `diagnose_deployment` tool after the deployment record was found:
header, then either the three structured sections (when a workspace id is
available) or the unstructured fallback block, then the fixed summary.
`backend` maps a dispatched KQL text to its outcome; `kuduResult` is the
result of `kudu.getRecentLogs(appName, 100)`, consulted only on the fallback
path. -/
def diagnoseDeployment (backend : String → BackendOutcome) (elapsed : Nat)
    (kuduResult : KuduLogsResult) (deployTimeMs windowMinutes : Nat)
    (status deployer message : Option String)
    (workspaceId : Option String) : String :=
  let sIso := isoString deployTimeMs
  let eIso := isoString (deployTimeMs + windowMinutes * 60000)
  deployHeader deployTimeMs status deployer message
  ++ (match workspaceId with
    | some _ =>
      platformSection (query backend elapsed (platformQueryStr sIso eIso)
          (windowMinutes : Int))
        ++ consoleSection (query backend elapsed (consoleQueryStr sIso eIso)
          (windowMinutes : Int))
        ++ httpSection (query backend elapsed (httpQueryStr sIso eIso)
          (windowMinutes : Int))
    | none => fallbackSection kuduResult.entries)
  ++ diagnosisSummary windowMinutes deployTimeMs

/-- `(args.windowMinutes as number) || 5` of `correlate_events`: `undefined`
and `0` fall back to the 5-minute default. -/
def effectiveWindowMinutes : Option Nat → Nat
  | none => 5
  | some 0 => 5
  | some n => n

/-- The combined union query of `correlate_events`. -/
def correlateQueryStr (startIso endIso : String) : String :=
  "union AppServiceHTTPLogs, AppServiceConsoleLogs, AppServicePlatformLogs\n"
    ++ "| where TimeGenerated between (datetime('" ++ startIso
    ++ "') .. datetime('" ++ endIso ++ "'))\n"
    ++ "| project TimeGenerated, Type=$table, Message=coalesce(ResultDescription, Message, strcat(CsMethod, ' ', CsUriStem, ' ', ScStatus))\n"
    ++ "| order by TimeGenerated asc"

/-- The window of `correlate_events`: `[t - r, t + r]` in epoch ms, with `r`
the effective window radius. -/
def correlateWindow (tMs : Nat) (w : Option Nat) : Nat × Nat :=
  let windowMs := effectiveWindowMinutes w * 60000
  (tMs - windowMs, tMs + windowMs)

/-- The `correlate_events` tool after the workspace id was found: issue the
combined query over the window through the guardrailed connector with a
60-minute time range. -/
def correlateEvents (backend : String → BackendOutcome) (elapsed : Nat)
    (tMs : Nat) (w : Option Nat) : LogQueryResult :=
  match correlateWindow tMs w with
  | (s, e) =>
    query backend elapsed (correlateQueryStr (isoString s) (isoString e)) 60

/-- A concrete log descriptor used by the witnesses below. -/
def sampleEntry (p : String) : KuduLogEntry :=
  { machineName := "m", lastUpdated := 0, size := 1, href := "h", path := p }

lemma str_data_append (a b : String) : (a ++ b).data = a.data ++ b.data := by
  cases a; cases b; rfl

lemma str_ext {a b : String} (h : a.data = b.data) : a = b := by
  cases a; cases b; exact congrArg String.mk h

lemma str_append_assoc (a b c : String) : a ++ b ++ c = a ++ (b ++ c) := by
  apply str_ext
  simp [str_data_append]

lemma isPrefixChars_extend (p : List Char) :
    ∀ l m, isPrefixChars p l = true → isPrefixChars p (l ++ m) = true := by
  induction p with
  | nil => intro l m _; rfl
  | cons a as ih =>
    intro l m h
    cases l with
    | nil => simp [isPrefixChars] at h
    | cons b bs =>
      simp only [isPrefixChars, Bool.and_eq_true] at h ⊢
      exact ⟨h.1, ih bs m h.2⟩

lemma containsChars_nil_pat (l : List Char) : containsChars [] l = true := by
  cases l with
  | nil => rfl
  | cons b bs => simp [containsChars, isPrefixChars]

lemma containsChars_append_right (p a b : List Char)
    (h : containsChars p b = true) : containsChars p (a ++ b) = true := by
  induction a with
  | nil => simpa using h
  | cons c cs ih =>
    simp only [List.cons_append, containsChars, Bool.or_eq_true]
    exact Or.inr ih

lemma containsChars_append_left (p a b : List Char)
    (h : containsChars p a = true) : containsChars p (a ++ b) = true := by
  induction a with
  | nil =>
    cases p with
    | nil => exact containsChars_nil_pat b
    | cons x xs => simp [containsChars, isPrefixChars] at h
  | cons c cs ih =>
    simp only [containsChars, Bool.or_eq_true] at h
    simp only [List.cons_append, containsChars, Bool.or_eq_true]
    cases h with
    | inl hp => exact Or.inl (isPrefixChars_extend p (c :: cs) b hp)
    | inr hc => exact Or.inr (ih hc)

lemma strContains_append_left {a pat : String} (b : String)
    (h : strContains a pat = true) : strContains (a ++ b) pat = true := by
  unfold strContains at h ⊢
  rw [str_data_append]
  exact containsChars_append_left _ _ _ h

lemma strContains_append_right {b pat : String} (a : String)
    (h : strContains b pat = true) : strContains (a ++ b) pat = true := by
  unfold strContains at h ⊢
  rw [str_data_append]
  exact containsChars_append_right _ _ _ h

lemma dispatchOutcome_invariant (o : BackendOutcome) (e : Nat) :
    (dispatchOutcome o e).rowCount = (dispatchOutcome o e).rows.length
    ∧ ((dispatchOutcome o e).truncated = true ↔
        MAX_ROWS ≤ (dispatchOutcome o e).rowCount) := by
  cases o with
  | success tables =>
    cases tables with
    | nil => simp [dispatchOutcome, MAX_ROWS]
    | cons tb rest => simp [dispatchOutcome, ge_iff_le]
  | partialFailure m => simp [dispatchOutcome, MAX_ROWS]
  | otherStatus => simp [dispatchOutcome, MAX_ROWS]
  | thrown m => simp [dispatchOutcome, MAX_ROWS]

/-- C1: a time range above the 7-day ceiling (10080 minutes) is rejected with
`success=false`, `rowCount=0`, `queryTimeMs=0` and an error naming the 7-day
ceiling, and the result is the constant `rejectResult`, the same for every
backend — no backend call is made; a range at or below the ceiling is
dispatched to the backend with exactly `addRowLimit kqlQuery 500` as its
content. -/
theorem query_guardrail_enforcement (b : String → BackendOutcome) (e : Nat)
    (q : String) (t : Int) :
    (t > 10080 →
      query b e q t = rejectResult
      ∧ rejectResult.success = false
      ∧ rejectResult.rowCount = 0
      ∧ rejectResult.queryTimeMs = 0
      ∧ rejectResult.error =
          some "Time range exceeds maximum of 7 days. Use a shorter time range."
      ∧ strContains
          "Time range exceeds maximum of 7 days. Use a shorter time range."
          "7 days" = true)
    ∧ (t ≤ 10080 →
      query b e q t = dispatchOutcome (b (addRowLimit q MAX_ROWS)) e) := by
  constructor
  · intro h
    have h7 : t > 7 * 24 * 60 := by omega
    exact ⟨by unfold query; rw [if_pos h7], rfl, rfl, rfl, rfl, by decide⟩
  · intro h
    have h7 : ¬ t > 7 * 24 * 60 := by omega
    unfold query
    rw [if_neg h7]

/-- Witness for C1 at `timeRangeMinutes = 10081` and `60`. -/
theorem query_guardrail_enforcement_witness :
    query (fun _ => BackendOutcome.otherStatus) 0 "T" 10081 = rejectResult
    ∧ query (fun _ => BackendOutcome.otherStatus) 7 "T" 60 =
        dispatchOutcome BackendOutcome.otherStatus 7 :=
  ⟨((query_guardrail_enforcement (fun _ => BackendOutcome.otherStatus) 0 "T"
      10081).1 (by decide)).1,
   (query_guardrail_enforcement (fun _ => BackendOutcome.otherStatus) 7 "T"
      60).2 (by decide)⟩

/-- C2 (amended): for every result of `LogAnalyticsConnector.query`,
`rowCount` equals `rows.length`, and `truncated` is true iff `rowCount` is at
least the configured cap of 500 (the source computes
`truncated := rows.length >= MAX_ROWS`). -/
theorem query_rowcount_truncated (b : String → BackendOutcome) (e : Nat)
    (q : String) (t : Int) :
    (query b e q t).rowCount = (query b e q t).rows.length
    ∧ ((query b e q t).truncated = true ↔ 500 ≤ (query b e q t).rowCount) := by
  unfold query
  split
  · simp [rejectResult]
  · exact dispatchOutcome_invariant _ e

set_option maxRecDepth 8192 in
/-- C2 counterexample: a backend success carrying 501 rows (reachable when the
raw query carries its own higher `take` cap) yields `truncated = true` with
`rowCount = 501 ≠ 500`, refuting "truncated iff rowCount equals 500". -/
theorem query_truncated_501_counterexample :
    (query (fun _ => BackendOutcome.success
        [⟨[some "c"], List.replicate 501 [Scalar.null]⟩]) 3 "T | take 501"
        60).truncated = true
    ∧ (query (fun _ => BackendOutcome.success
        [⟨[some "c"], List.replicate 501 [Scalar.null]⟩]) 3 "T | take 501"
        60).rowCount = 501 := by
  constructor <;> rfl

/-- C3: the enforcer leaves a query containing a row-cap clause (`| limit` or
`| take`, any case) unchanged, and appends `"\n| limit 500"` otherwise; in
particular on the two example queries of the specification. -/
theorem addRowLimit_spec (q : String) :
    (hasRowCapClause q = true → addRowLimit q 500 = q)
    ∧ (hasRowCapClause q = false → addRowLimit q 500 = q ++ "\n| limit 500")
    ∧ addRowLimit "T | where X > 1" 500 = "T | where X > 1\n| limit 500"
    ∧ addRowLimit "T | take 10" 500 = "T | take 10" := by
  refine ⟨fun h => ?_, fun h => ?_, rfl, rfl⟩
  · unfold hasRowCapClause at h
    unfold addRowLimit
    simp only [h, if_true]
  · unfold hasRowCapClause at h
    unfold addRowLimit
    simp only [h, Bool.false_eq_true, if_false]
    rw [str_append_assoc]
    rfl

/-- Witness for C3 on the two example queries. -/
theorem addRowLimit_spec_witness :
    addRowLimit "T | take 10" 500 = "T | take 10"
    ∧ addRowLimit "T | where X > 1" 500 = "T | where X > 1" ++ "\n| limit 500" :=
  ⟨(addRowLimit_spec "T | take 10").1 (by decide),
   (addRowLimit_spec "T | where X > 1").2.1 (by decide)⟩

/-- C4: `query` is a total function (never throws) and classifies every
backend outcome: a failed result always carries a message; below the
guardrail ceiling, a thrown backend error and a partial failure yield
`success=false` with the error message, a non-success/non-partial status and
an empty table list yield `success=true` with `rowCount=0`, and a tabular
result yields `success=true`. -/
theorem query_outcome_classification (b : String → BackendOutcome) (e : Nat)
    (q : String) (t : Int) :
    ((query b e q t).success = false → ((query b e q t).error).isSome = true)
    ∧ (t ≤ 10080 →
      (∀ m, b (addRowLimit q MAX_ROWS) = BackendOutcome.thrown m →
        query b e q t =
          { success := false, rowCount := 0, truncated := false,
            columns := [], rows := [], queryTimeMs := e, error := some m })
      ∧ (∀ m, b (addRowLimit q MAX_ROWS) = BackendOutcome.partialFailure m →
        (query b e q t).success = false
        ∧ (query b e q t).error =
            some ("Partial query failure: " ++ jsOrStr m "Unknown error"))
      ∧ (b (addRowLimit q MAX_ROWS) = BackendOutcome.otherStatus →
        query b e q t =
          { success := true, rowCount := 0, truncated := false,
            columns := [], rows := [], queryTimeMs := e, error := none })
      ∧ (b (addRowLimit q MAX_ROWS) = BackendOutcome.success [] →
        query b e q t =
          { success := true, rowCount := 0, truncated := false,
            columns := [], rows := [], queryTimeMs := e, error := none })
      ∧ (∀ tb rest,
          b (addRowLimit q MAX_ROWS) = BackendOutcome.success (tb :: rest) →
        (query b e q t).success = true ∧ (query b e q t).error = none)) := by
  constructor
  · intro hs
    unfold query at hs ⊢
    by_cases h7 : t > 7 * 24 * 60
    · rw [if_pos h7]
      simp [rejectResult]
    · rw [if_neg h7] at hs ⊢
      cases ho : b (addRowLimit q MAX_ROWS) with
      | success tables =>
        rw [ho] at hs
        cases tables <;> simp [dispatchOutcome] at hs
      | partialFailure m => simp [dispatchOutcome]
      | otherStatus => rw [ho] at hs; simp [dispatchOutcome] at hs
      | thrown m => simp [dispatchOutcome]
  · intro ht
    have h7 : ¬ t > 7 * 24 * 60 := by omega
    unfold query
    rw [if_neg h7]
    refine ⟨fun m hm => ?_, fun m hm => ?_, fun hm => ?_, fun hm => ?_,
      fun tb rest hm => ?_⟩ <;> rw [hm] <;> simp [dispatchOutcome]

/-- Witness for C4 with a throwing backend at a 60-minute range. -/
theorem query_outcome_classification_witness :
    query (fun _ => BackendOutcome.thrown "boom") 5 "T" 60 =
      { success := false, rowCount := 0, truncated := false, columns := [],
        rows := [], queryTimeMs := 5, error := some "boom" } :=
  ((query_outcome_classification (fun _ => BackendOutcome.thrown "boom") 5 "T"
      60).2 (by decide)).1 "boom" rfl

/-- C5 counterexample: with an empty live stream and a fallback file whose
line starts with a recognizable timestamp, the returned entry is stamped with
the fetch time `"NOW"`, not with the timestamp the live-stream processing
would extract — the fallback lines are NOT processed with timestamp
extraction, refuting the claim's "processed exactly as the live-stream lines
including timestamp extraction". -/
theorem getRecentLogs_timestamp_counterexample :
    (getRecentLogs (.ok []) (fun _ => .error "x")
        (.ok [{ machineName := "m", lastUpdated := 0, size := 5,
                href := "h", path := "/p" }])
        (fun _ => .ok "2024-01-15T10:30:00 boom") "NOW" 100 none).entries
      = [{ timestamp := "NOW", content := "2024-01-15T10:30:00 boom" }]
    ∧ extractTimestamp "2024-01-15T10:30:00 boom" "NOW" = "2024-01-15T10:30:00"
    ∧ ("NOW" : String) ≠ "2024-01-15T10:30:00" :=
  ⟨rfl, rfl, by decide⟩

/-- C5 (amended): when the live-stream attempt yields zero usable entries,
`getRecentLogs` returns the on-disk fallback's lines — blank lines dropped,
the case-insensitive filter applied before the last-`maxLines` cut, every
entry stamped with the fetch time (no timestamp extraction) — and when the
fallback listing or read errors, it returns the original (possibly empty)
live-stream result rather than propagating the failure; it never raises. -/
theorem getRecentLogs_fallback_behavior
    (lr : Except String (List KuduLogEntry))
    (ft : String → Except String String)
    (lf : Except String (List KuduLogEntry))
    (rr : String → Except String String)
    (now : String) (maxLines : Nat) (filt : Option String)
    (h : (getContainerLogs lr ft now maxLines).success = false
      ∨ (getContainerLogs lr ft now maxLines).entries = []) :
    (∀ e, lf = .error e →
      getRecentLogs lr ft lf rr now maxLines filt
        = getContainerLogs lr ft now maxLines)
    ∧ (lf = .ok [] →
      getRecentLogs lr ft lf rr now maxLines filt
        = { success := true, entries := [] })
    ∧ (∀ f0 rest, lf = .ok (f0 :: rest) →
      (∀ e, readLogFileModel
          (rr ((sortByLastUpdatedDesc (f0 :: rest)).headD f0).path) 100000
          = .error e →
        getRecentLogs lr ft lf rr now maxLines filt
          = getContainerLogs lr ft now maxLines)
      ∧ (∀ content, readLogFileModel
          (rr ((sortByLastUpdatedDesc (f0 :: rest)).headD f0).path) 100000
          = .ok content →
        getRecentLogs lr ft lf rr now maxLines filt
          = { success := true,
              entries := fallbackEntries content filt maxLines now }))
    ∧ (∀ s c, c ∈ fallbackEntries s filt maxLines now → c.timestamp = now) := by
  have hc : ((getContainerLogs lr ft now maxLines).success
      && !(getContainerLogs lr ft now maxLines).entries.isEmpty) = false := by
    rcases h with h | h
    · simp [h]
    · simp [h]
  refine ⟨fun e he => ?_, fun he => ?_, fun f0 rest he => ⟨fun e2 hre => ?_,
    fun content hrc => ?_⟩, fun s c hmem => ?_⟩
  · simp only [getRecentLogs, hc, Bool.false_eq_true, if_false, fallbackFlow,
      he, listLogFilesModel]
  · simp only [getRecentLogs, hc, Bool.false_eq_true, if_false, fallbackFlow,
      he, listLogFilesModel]
  · simp only [getRecentLogs, hc, Bool.false_eq_true, if_false, fallbackFlow,
      he, listLogFilesModel, hre]
  · simp only [getRecentLogs, hc, Bool.false_eq_true, if_false, fallbackFlow,
      he, listLogFilesModel, hrc]
  · simp only [fallbackEntries, List.mem_map] at hmem
    obtain ⟨line, _, rfl⟩ := hmem
    rfl

/-- Witness for C5: empty live stream, one fallback file, readable content. -/
theorem getRecentLogs_fallback_behavior_witness :
    getRecentLogs (.ok []) (fun _ => .error "x") (.ok [sampleEntry "/p"])
        (fun _ => .ok "a\n\nb") "N" 100 none
      = { success := true, entries := fallbackEntries "a\n\nb" none 100 "N" } :=
  ((getRecentLogs_fallback_behavior (.ok []) (fun _ => .error "x")
      (.ok [sampleEntry "/p"]) (fun _ => .ok "a\n\nb") "N" 100 none
      (Or.inr rfl)).2.2.1 (sampleEntry "/p") [] rfl).2 "a\n\nb" rfl

/-- C6 counterexample: the startup tag is NOT a case-insensitive test:
`"Starting container"` contains `"start"` ignoring case, yet the code's
filter (`r.Message?.includes('start')`, no lower-casing) does not tag it. -/
theorem classifier_case_counterexample :
    containsAnyKeywordCI "Starting container" ["start", "probe", "running"]
      = true
    ∧ isStartupEvent "Starting container" = false :=
  ⟨rfl, rfl⟩

/-- C6 (amended): the startup and termination tests are case-SENSITIVE
substring tests over their keyword sets, while the error tests (platform and
app variants) are case-insensitive; tags are not mutually exclusive (e.g.
`"probe failed"` is both startup and error). -/
theorem classifier_keyword_tests (msg : String) :
    isStartupEvent msg = containsAnyKeyword msg ["start", "probe", "running"]
    ∧ isTerminateEvent msg = containsAnyKeyword msg ["terminat", "stop"]
    ∧ isErrorEvent msg
        = containsAnyKeywordCI msg ["error", "fail", "crash", "oom", "memory"]
    ∧ isAppErrorLog msg
        = containsAnyKeywordCI msg ["error", "exception", "fail"]
    ∧ isStartupEvent "probe failed" = true
    ∧ isErrorEvent "probe failed" = true := by
  have k1 : toLowerStr "error" = "error" := rfl
  have k2 : toLowerStr "fail" = "fail" := rfl
  have k3 : toLowerStr "crash" = "crash" := rfl
  have k4 : toLowerStr "oom" = "oom" := rfl
  have k5 : toLowerStr "memory" = "memory" := rfl
  have k6 : toLowerStr "exception" = "exception" := rfl
  refine ⟨?_, ?_, ?_, ?_, rfl, rfl⟩ <;>
    simp [isStartupEvent, isTerminateEvent, isErrorEvent, isAppErrorLog,
      containsAnyKeyword, containsAnyKeywordCI, containsCI,
      k1, k2, k3, k4, k5, k6, Bool.or_assoc]

/-- C10: when the live-stream attempt succeeds with at least one entry, the
result is the (possibly empty) filtered entry list, the on-disk fallback
inputs are never consulted (the result is the same for all of them), and a
filter matching nothing yields a successful zero-entry result — the fallback
decision is made on the pre-filter count. -/
theorem getRecentLogs_prefilter_decision
    (lr : Except String (List KuduLogEntry))
    (ft : String → Except String String)
    (lf : Except String (List KuduLogEntry))
    (rr : String → Except String String)
    (now : String) (maxLines : Nat) (f : String)
    (hs : (getContainerLogs lr ft now maxLines).success = true)
    (hne : (getContainerLogs lr ft now maxLines).entries ≠ []) :
    getRecentLogs lr ft lf rr now maxLines (some f)
      = { success := true,
          entries :=
            if f = "" then (getContainerLogs lr ft now maxLines).entries
            else (getContainerLogs lr ft now maxLines).entries.filter
              (fun e => containsCI e.content f) }
    ∧ (∀ lf2 rr2, getRecentLogs lr ft lf2 rr2 now maxLines (some f)
        = getRecentLogs lr ft lf rr now maxLines (some f))
    ∧ ((getContainerLogs lr ft now maxLines).entries.all
          (fun e => !(containsCI e.content f)) = true → ¬f = "" →
        (getRecentLogs lr ft lf rr now maxLines (some f)).entries = []
        ∧ (getRecentLogs lr ft lf rr now maxLines (some f)).success = true) := by
  have hni : (getContainerLogs lr ft now maxLines).entries.isEmpty = false := by
    cases hE : (getContainerLogs lr ft now maxLines).entries with
    | nil => exact absurd hE hne
    | cons a as => rfl
  have hmain : getRecentLogs lr ft lf rr now maxLines (some f)
      = { success := true,
          entries :=
            if f = "" then (getContainerLogs lr ft now maxLines).entries
            else (getContainerLogs lr ft now maxLines).entries.filter
              (fun e => containsCI e.content f) } := by
    simp [getRecentLogs, liveEntriesFiltered, hs, hni]
  refine ⟨hmain, fun lf2 rr2 => ?_, fun hall hf => ?_⟩
  · rw [hmain]
    simp [getRecentLogs, liveEntriesFiltered, hs, hni]
  · rw [hmain]
    rw [List.all_eq_true] at hall
    refine ⟨?_, rfl⟩
    simp only [hf, if_false]
    exact List.filter_eq_nil_iff.mpr (fun a ha => by
      have := hall a ha
      simp only [Bool.not_eq_true'] at this
      simp [this])

lemma isPrefixChars_refl (l : List Char) : isPrefixChars l l = true := by
  induction l with
  | nil => rfl
  | cons a as ih => simp [isPrefixChars, ih]

lemma strContains_refl (s : String) : strContains s s = true := by
  unfold strContains
  cases hd : s.data with
  | nil => rfl
  | cons c cs =>
    simp only [containsChars, Bool.or_eq_true]
    exact Or.inl (isPrefixChars_refl (c :: cs))

lemma platformSection_header (r : LogQueryResult) :
    strContains (platformSection r) "### Platform Events (" = true := by
  unfold platformSection
  exact strContains_append_left _ (strContains_append_left _
    (strContains_append_left _ (strContains_refl _)))

lemma consoleSection_header (r : LogQueryResult) :
    strContains (consoleSection r) "### Application Logs (" = true := by
  unfold consoleSection
  exact strContains_append_left _ (strContains_append_left _
    (strContains_append_left _ (strContains_refl _)))

lemma httpSection_header (r : LogQueryResult) :
    strContains (httpSection r) "### First HTTP Requests (" = true := by
  unfold httpSection
  exact strContains_append_left _ (strContains_append_left _
    (strContains_append_left _ (strContains_refl _)))

lemma platformSection_empty_marker (r : LogQueryResult) (h : r.rows = []) :
    strContains (platformSection r)
      "_No platform events found in this window._" = true := by
  unfold platformSection
  rw [h]
  exact strContains_append_right _ (by decide)

lemma consoleSection_empty_marker (r : LogQueryResult) (h : r.rows = []) :
    strContains (consoleSection r)
      "_No console output in this window._" = true := by
  unfold consoleSection
  rw [h]
  exact strContains_append_right _ (by decide)

lemma consoleSection_rows_dichotomy (r : LogQueryResult) (h : r.rows ≠ []) :
    (r.rows.filter rowAppError ≠ [] →
      strContains (consoleSection r) "⚠️ **Application errors:**" = true)
    ∧ (r.rows.filter rowAppError = [] →
      strContains (consoleSection r) "✅ No application errors detected."
        = true) := by
  have hlen : r.rows.length > 0 := List.length_pos.mpr h
  constructor
  · intro he
    have hel : (r.rows.filter rowAppError).length > 0 := List.length_pos.mpr he
    simp only [consoleSection]
    rw [if_pos hlen, if_pos hel]
    exact strContains_append_right _ (strContains_append_left _
      (strContains_append_left _ (by decide)))
  · intro he
    have hel : ¬(r.rows.filter rowAppError).length > 0 := by simp [he]
    simp only [consoleSection]
    rw [if_pos hlen, if_neg hel]
    exact strContains_append_right _ (by decide)

lemma httpSection_empty_marker (r : LogQueryResult) (h : r.rows = []) :
    strContains (httpSection r)
      "_No HTTP requests in this window (app may not have received traffic yet)._"
      = true := by
  unfold httpSection
  rw [h]
  exact strContains_append_right _ (by decide)

lemma fallbackSection_label (entries : List ContainerLog) :
    strContains (fallbackSection entries)
      "⚠️ Log Analytics not configured. Limited diagnosis available."
      = true := by
  unfold fallbackSection
  exact strContains_append_left _ (strContains_append_left _ (by decide))

lemma fallbackSection_header (entries : List ContainerLog) :
    strContains (fallbackSection entries) "### Recent Container Logs"
      = true := by
  unfold fallbackSection
  exact strContains_append_left _ (strContains_append_right _ (by decide))

lemma lastNList_length_le {α : Type} (n : Nat) (xs : List α) (hn : n ≠ 0) :
    (lastNList n xs).length ≤ n := by
  unfold lastNList
  rw [if_neg hn]
  rw [List.length_drop]
  omega

lemma getContainerLogs_length_le (lr : Except String (List KuduLogEntry))
    (ft : String → Except String String) (now : String) (maxLines : Nat)
    (hn : maxLines ≠ 0) :
    (getContainerLogs lr ft now maxLines).entries.length ≤ maxLines := by
  cases h1 : listContainerLogsModel lr with
  | error e =>
    simp only [getContainerLogs, h1]
    exact Nat.zero_le maxLines
  | ok l =>
    cases l with
    | nil =>
      simp only [getContainerLogs, h1]
      exact Nat.zero_le maxLines
    | cons l0 rest =>
      simp only [getContainerLogs, h1]
      cases h2 : ft ((sortByLastUpdatedDesc (l0 :: rest)).headD l0).href with
      | error e => exact Nat.zero_le maxLines
      | ok content =>
        simp only [List.length_map]
        exact lastNList_length_le _ _ hn

lemma fallbackEntries_length_le (content : String) (filt : Option String)
    (maxLines : Nat) (now : String) (hn : maxLines ≠ 0) :
    (fallbackEntries content filt maxLines now).length ≤ maxLines := by
  unfold fallbackEntries
  simp only [List.length_map]
  exact lastNList_length_le _ _ hn

lemma liveEntriesFiltered_length_le (entries : List ContainerLog)
    (filt : Option String) :
    (liveEntriesFiltered entries filt).length ≤ entries.length := by
  cases filt with
  | none => exact le_refl _
  | some fs =>
    by_cases hfs : fs = ""
    · subst hfs
      exact le_refl _
    · show (if fs = "" then entries
        else entries.filter (fun e => containsCI e.content fs)).length
          ≤ entries.length
      rw [if_neg hfs]
      exact List.length_filter_le _ _

lemma fallbackFlow_length_le (containerResult : KuduLogsResult)
    (lf : Except String (List KuduLogEntry))
    (rr : String → Except String String)
    (now : String) (maxLines : Nat) (filt : Option String)
    (hn : maxLines ≠ 0)
    (hCR : containerResult.entries.length ≤ maxLines) :
    (fallbackFlow containerResult lf rr now maxLines filt).entries.length
      ≤ maxLines := by
  cases h1 : listLogFilesModel lf with
  | error e =>
    simp only [fallbackFlow, h1]
    exact hCR
  | ok l =>
    cases l with
    | nil =>
      simp only [fallbackFlow, h1]
      exact Nat.zero_le maxLines
    | cons f0 rest =>
      simp only [fallbackFlow, h1]
      cases h2 : readLogFileModel
          (rr ((sortByLastUpdatedDesc (f0 :: rest)).headD f0).path)
          100000 with
      | error e => exact hCR
      | ok content => exact fallbackEntries_length_le _ _ _ _ hn

lemma getRecentLogs_length_le (lr : Except String (List KuduLogEntry))
    (ft : String → Except String String)
    (lf : Except String (List KuduLogEntry))
    (rr : String → Except String String)
    (now : String) (maxLines : Nat) (filt : Option String)
    (hn : maxLines ≠ 0) :
    (getRecentLogs lr ft lf rr now maxLines filt).entries.length
      ≤ maxLines := by
  have hcl := getContainerLogs_length_le lr ft now maxLines hn
  simp only [getRecentLogs]
  by_cases hcond : ((getContainerLogs lr ft now maxLines).success
      && !(getContainerLogs lr ft now maxLines).entries.isEmpty) = true
  · rw [if_pos hcond]
    exact le_trans (liveEntriesFiltered_length_le _ _) hcl
  · rw [if_neg hcond]
    exact fallbackFlow_length_le _ _ _ _ _ _ hn hcl

/-- Witness for C10: two live-stream lines, a filter matching neither. -/
theorem getRecentLogs_prefilter_decision_witness :
    (getRecentLogs (.ok [sampleEntry "p"]) (fun _ => .ok "hello\nworld")
      (.ok []) (fun _ => .error "x") "N" 100 (some "zzz")).entries = []
    ∧ (getRecentLogs (.ok [sampleEntry "p"]) (fun _ => .ok "hello\nworld")
      (.ok []) (fun _ => .error "x") "N" 100 (some "zzz")).success = true :=
  (getRecentLogs_prefilter_decision (.ok [sampleEntry "p"])
      (fun _ => .ok "hello\nworld") (.ok []) (fun _ => .error "x")
      "N" 100 "zzz" rfl (by decide)).2.2 (by decide) (by decide)

/-- C7 counterexample: an HTTP query result with one row whose status is 404
(neither ≥ 500 nor < 400) yields a section that is exactly the bare header —
no finding line and no "none found" marker — refuting "each section is either
populated with findings or carries an explicit marker". -/
theorem diagnose_section_no_marker_counterexample :
    httpSection { success := true, rowCount := 1, truncated := false,
                  columns := ["ScStatus"],
                  rows := [[("ScStatus", some (Scalar.num 404))]],
                  queryTimeMs := 0, error := none }
      = "### First HTTP Requests (1 requests)\n\n"
    ∧ strContains "### First HTTP Requests (1 requests)\n\n" "_No" = false
    ∧ strContains "### First HTTP Requests (1 requests)\n\n" "**" = false
    ∧ ([[(("ScStatus" : String), some (Scalar.num 404))]]
        : List (List (String × Option Scalar))) ≠ [] :=
  ⟨rfl, by decide, by decide, by decide⟩

/-- C7 (amended): with a workspace id available, the deployment-diagnosis
report always contains the three section headers — platform events,
application logs, first HTTP requests — no section is ever omitted, and a
section whose query returned zero rows (including failed queries, whose
results carry zero rows) carries its explicit "none found" / "no output" /
"no requests" marker.  (A section with rows matching no display category
shows only the header with its row count: see the counterexample.) -/
theorem diagnose_report_sections (backend : String → BackendOutcome)
    (elapsed : Nat) (k : KuduLogsResult) (dep win : Nat)
    (st dp msg : Option String) (w : String) :
    strContains (diagnoseDeployment backend elapsed k dep win st dp msg
      (some w)) "### Platform Events (" = true
    ∧ strContains (diagnoseDeployment backend elapsed k dep win st dp msg
      (some w)) "### Application Logs (" = true
    ∧ strContains (diagnoseDeployment backend elapsed k dep win st dp msg
      (some w)) "### First HTTP Requests (" = true
    ∧ ((query backend elapsed (platformQueryStr (isoString dep)
          (isoString (dep + win * 60000))) (win : Int)).rows = [] →
      strContains (diagnoseDeployment backend elapsed k dep win st dp msg
        (some w)) "_No platform events found in this window._" = true)
    ∧ ((query backend elapsed (consoleQueryStr (isoString dep)
          (isoString (dep + win * 60000))) (win : Int)).rows = [] →
      strContains (diagnoseDeployment backend elapsed k dep win st dp msg
        (some w)) "_No console output in this window._" = true)
    ∧ ((query backend elapsed (httpQueryStr (isoString dep)
          (isoString (dep + win * 60000))) (win : Int)).rows = [] →
      strContains (diagnoseDeployment backend elapsed k dep win st dp msg
        (some w))
        "_No HTTP requests in this window (app may not have received traffic yet)._"
        = true)
    ∧ ((query backend elapsed (consoleQueryStr (isoString dep)
          (isoString (dep + win * 60000))) (win : Int)).rows ≠ [] →
      (((query backend elapsed (consoleQueryStr (isoString dep)
          (isoString (dep + win * 60000))) (win : Int)).rows.filter rowAppError
            ≠ [] →
        strContains (diagnoseDeployment backend elapsed k dep win st dp msg
          (some w)) "⚠️ **Application errors:**" = true)
      ∧ (((query backend elapsed (consoleQueryStr (isoString dep)
          (isoString (dep + win * 60000))) (win : Int)).rows.filter rowAppError
            = [] →
        strContains (diagnoseDeployment backend elapsed k dep win st dp msg
          (some w)) "✅ No application errors detected." = true)))) := by
  have hrep : diagnoseDeployment backend elapsed k dep win st dp msg (some w)
      = deployHeader dep st dp msg
        ++ (platformSection (query backend elapsed
            (platformQueryStr (isoString dep) (isoString (dep + win * 60000)))
            (win : Int))
          ++ consoleSection (query backend elapsed
            (consoleQueryStr (isoString dep) (isoString (dep + win * 60000)))
            (win : Int))
          ++ httpSection (query backend elapsed
            (httpQueryStr (isoString dep) (isoString (dep + win * 60000)))
            (win : Int)))
        ++ diagnosisSummary win dep := rfl
  rw [hrep]
  refine ⟨?_, ?_, ?_, fun h => ?_, fun h => ?_, fun h => ?_, fun h => ?_⟩
  · exact strContains_append_left _ (strContains_append_right _
      (strContains_append_left _ (strContains_append_left _
        (platformSection_header _))))
  · exact strContains_append_left _ (strContains_append_right _
      (strContains_append_left _ (strContains_append_right _
        (consoleSection_header _))))
  · exact strContains_append_left _ (strContains_append_right _
      (strContains_append_right _ (httpSection_header _)))
  · exact strContains_append_left _ (strContains_append_right _
      (strContains_append_left _ (strContains_append_left _
        (platformSection_empty_marker _ h))))
  · exact strContains_append_left _ (strContains_append_right _
      (strContains_append_left _ (strContains_append_right _
        (consoleSection_empty_marker _ h))))
  · exact strContains_append_left _ (strContains_append_right _
      (strContains_append_right _ (httpSection_empty_marker _ h)))
  · have hd := consoleSection_rows_dichotomy (query backend elapsed
      (consoleQueryStr (isoString dep) (isoString (dep + win * 60000)))
      (win : Int)) h
    exact ⟨fun he => strContains_append_left _ (strContains_append_right _
        (strContains_append_left _ (strContains_append_right _ (hd.1 he)))),
      fun he => strContains_append_left _ (strContains_append_right _
        (strContains_append_left _ (strContains_append_right _
          (hd.2 he))))⟩

/-- Witness for C7: a backend whose status is neither success nor partial
failure gives three empty row sets, so all three markers appear; a backend
returning one non-error console row exercises the nonzero-row dichotomy and
shows the explicit "no errors" marker. -/
theorem diagnose_report_sections_witness :
    strContains (diagnoseDeployment (fun _ => BackendOutcome.otherStatus) 0
      { success := true, entries := [] } 0 10 none none none (some "w"))
      "_No platform events found in this window._" = true
    ∧ strContains (diagnoseDeployment (fun _ => BackendOutcome.otherStatus) 0
      { success := true, entries := [] } 0 10 none none none (some "w"))
      "_No console output in this window._" = true
    ∧ strContains (diagnoseDeployment (fun _ => BackendOutcome.otherStatus) 0
      { success := true, entries := [] } 0 10 none none none (some "w"))
      "_No HTTP requests in this window (app may not have received traffic yet)._"
      = true
    ∧ strContains (diagnoseDeployment (fun _ => BackendOutcome.success
        [{ columnDescriptors := [some "ResultDescription"],
           rows := [[Scalar.str "hello"]] }]) 0
      { success := true, entries := [] } 0 10 none none none (some "w"))
      "✅ No application errors detected." = true :=
  ⟨(diagnose_report_sections (fun _ => BackendOutcome.otherStatus) 0
      { success := true, entries := [] } 0 10 none none none "w").2.2.2.1 rfl,
   (diagnose_report_sections (fun _ => BackendOutcome.otherStatus) 0
      { success := true, entries := [] } 0 10 none none none "w").2.2.2.2.1 rfl,
   (diagnose_report_sections (fun _ => BackendOutcome.otherStatus) 0
      { success := true, entries := [] } 0 10 none none none
      "w").2.2.2.2.2.1 rfl,
   ((diagnose_report_sections (fun _ => BackendOutcome.success
        [{ columnDescriptors := [some "ResultDescription"],
           rows := [[Scalar.str "hello"]] }]) 0
      { success := true, entries := [] } 0 10 none none none
      "w").2.2.2.2.2.2 (by decide)).2 (by decide)⟩

/-- C8: with no workspace id, the deployment-diagnosis report is the same for
every structured backend (no structured query can influence it), carries the
reduced-confidence label and the unstructured-logs section, and the
unstructured entries fetched via `getRecentLogs(appName, 100)` number at most
100 (of which at most 30 are displayed). -/
theorem diagnose_fallback_unstructured (b b2 : String → BackendOutcome)
    (e e2 : Nat) (lr : Except String (List KuduLogEntry))
    (ft : String → Except String String)
    (lf : Except String (List KuduLogEntry))
    (rr : String → Except String String)
    (now : String) (dep win : Nat) (st dp msg : Option String) :
    diagnoseDeployment b e (getRecentLogs lr ft lf rr now 100 none) dep win
        st dp msg none
      = diagnoseDeployment b2 e2 (getRecentLogs lr ft lf rr now 100 none) dep
        win st dp msg none
    ∧ strContains (diagnoseDeployment b e
        (getRecentLogs lr ft lf rr now 100 none) dep win st dp msg none)
        "⚠️ Log Analytics not configured. Limited diagnosis available." = true
    ∧ strContains (diagnoseDeployment b e
        (getRecentLogs lr ft lf rr now 100 none) dep win st dp msg none)
        "### Recent Container Logs" = true
    ∧ (getRecentLogs lr ft lf rr now 100 none).entries.length ≤ 100
    ∧ ((getRecentLogs lr ft lf rr now 100 none).entries.take 30).length
        ≤ 100 := by
  have hrep : diagnoseDeployment b e (getRecentLogs lr ft lf rr now 100 none)
      dep win st dp msg none
      = deployHeader dep st dp msg
        ++ fallbackSection (getRecentLogs lr ft lf rr now 100 none).entries
        ++ diagnosisSummary win dep := rfl
  refine ⟨rfl, ?_, ?_, getRecentLogs_length_le lr ft lf rr now 100 none
    (by decide), le_trans (List.length_take_le _ _) (by omega)⟩
  · rw [hrep]
    exact strContains_append_left _ (strContains_append_right _
      (fallbackSection_label _))
  · rw [hrep]
    exact strContains_append_left _ (strContains_append_right _
      (fallbackSection_header _))

/-- C9: timestamp correlation queries the combined window `[t - r, t + r]`
(default radius 5 minutes) with the union of the three structured tables
ordered ascending; on `2024-01-15T10:30:00Z` with the default radius the
window is `[10:25:00Z, 10:35:00Z]`. -/
theorem correlate_window_and_query (b : String → BackendOutcome) (e : Nat)
    (t : Nat) (w : Option Nat)
    (h : effectiveWindowMinutes w * 60000 ≤ t) :
    correlateWindow t w
      = (t - effectiveWindowMinutes w * 60000,
          t + effectiveWindowMinutes w * 60000)
    ∧ (correlateWindow t w).1 + effectiveWindowMinutes w * 60000 = t
    ∧ t + effectiveWindowMinutes w * 60000 = (correlateWindow t w).2
    ∧ correlateEvents b e t w
        = query b e (correlateQueryStr
            (isoString (t - effectiveWindowMinutes w * 60000))
            (isoString (t + effectiveWindowMinutes w * 60000))) 60
    ∧ strContains (correlateQueryStr
          (isoString (t - effectiveWindowMinutes w * 60000))
          (isoString (t + effectiveWindowMinutes w * 60000)))
        "union AppServiceHTTPLogs, AppServiceConsoleLogs, AppServicePlatformLogs"
        = true
    ∧ strContains (correlateQueryStr
          (isoString (t - effectiveWindowMinutes w * 60000))
          (isoString (t + effectiveWindowMinutes w * 60000)))
        "| order by TimeGenerated asc" = true
    ∧ effectiveWindowMinutes none = 5
    ∧ correlateWindow 1705314600000 none = (1705314300000, 1705314900000)
    ∧ isoString 1705314600000 = "2024-01-15T10:30:00.000Z"
    ∧ isoString 1705314300000 = "2024-01-15T10:25:00.000Z"
    ∧ isoString 1705314900000 = "2024-01-15T10:35:00.000Z" := by
  refine ⟨rfl, Nat.sub_add_cancel h, rfl, rfl, ?_, ?_, rfl, rfl, rfl, rfl,
    rfl⟩
  · exact strContains_append_left _ (strContains_append_left _
      (strContains_append_left _ (strContains_append_left _
        (strContains_append_left _ (strContains_append_left _
          (strContains_append_left _ (by decide)))))))
  · exact strContains_append_right _ (strContains_refl _)

/-- Witness for C9 at the specification's example instant. -/
theorem correlate_window_and_query_witness :
    correlateWindow 1705314600000 none = (1705314300000, 1705314900000)
    ∧ isoString 1705314300000 = "2024-01-15T10:25:00.000Z"
    ∧ isoString 1705314900000 = "2024-01-15T10:35:00.000Z" :=
  ⟨(correlate_window_and_query (fun _ => BackendOutcome.otherStatus) 0
      1705314600000 none (by decide)).2.2.2.2.2.2.2.1,
   (correlate_window_and_query (fun _ => BackendOutcome.otherStatus) 0
      1705314600000 none (by decide)).2.2.2.2.2.2.2.2.2.1,
   (correlate_window_and_query (fun _ => BackendOutcome.otherStatus) 0
      1705314600000 none (by decide)).2.2.2.2.2.2.2.2.2.2⟩

end Obs
